import Mathlib

/-!
Shallow embedding of `app.py` (India Real-Time Retail and Hospitality Demand
Pulse dashboard).  The embedding covers the parts of the program the
specification's claims are about: the CSV-backed observation store
(`load_data` / `save_data`), the alert e-mail sender (`send_alert_email`),
the Alerts page (size gate, feature selection, IsolationForest labelling,
per-anomaly dispatch loop) and the Submit Pulse page (append of one record).

Python exceptions are modelled with `Except`; the persisted CSV file is
modelled as `Option (List Row)` where `none` stands for an absent or
unreadable file; the behaviour of the external SMTP sink for the n-th send
attempt of a run is an environment parameter `sink : Nat → Except String Unit`;
the randomness of the unseeded IsolationForest fit is an explicit `seed`
parameter.
-/

/-- Configuration constant `SECTORS` from app.py. -/
def SECTORS : List String := ["Retail", "Hospitality", "Finance"]

/-- Configuration constant `REGIONS` from app.py. -/
def REGIONS : List String := ["Mumbai", "Delhi", "Chennai", "Kolkata", "Bengaluru", "Lucknow"]

/-- Configuration constant `ALERT_EMAIL` from app.py. -/
def ALERT_EMAIL : String := "your-alert-email@example.com"

/-- A value stored in one CSV cell of a numeric column: a number, a
malformed textual value (for example the string "abc" in `crowd_index`),
or a missing value (pandas NaN). -/
inductive Cell where
  | num (n : Int)
  | text (s : String)
  | missing
deriving DecidableEq, Repr

/-- One persisted pulse record, with the eight-column schema written by the
submission form.  The three numeric feature columns are `Cell`s because a
stored CSV row may be malformed there. -/
structure Row where
  timestamp : String
  region : String
  sector : String
  visitor_count : Cell
  top_items : String
  queue_time : Cell
  payment_modes : String
  crowd_index : Cell
deriving DecidableEq, Repr

/-- The fixed eight-column schema of the observation store (the column list
of the empty DataFrame built by `load_data` on a read failure). -/
def schemaColumns : List String :=
  ["timestamp", "region", "sector", "visitor_count", "top_items",
   "queue_time", "payment_modes", "crowd_index"]

/-- A pandas DataFrame as the program uses it: a column list and rows. -/
structure DataFrame where
  columns : List String
  rows : List Row
deriving DecidableEq, Repr

/-- The state of the backing CSV file `pulse_data.csv`: `none` when the file
is absent or unreadable, `some rows` when it parses to `rows`. -/
structure SysState where
  file : Option (List Row)
deriving DecidableEq, Repr

/-- load_data from app.py: `try: return pd.read_csv(DATA_FILE) except:
return pd.DataFrame(columns=[...])`.  Every read failure is caught and
yields the empty DataFrame with the fixed eight-column schema. -/
def load_data (file : Option (List Row)) : DataFrame :=
  match file with
  | some rows => { columns := schemaColumns, rows := rows }
  | none => { columns := schemaColumns, rows := [] }

/-- save_data from app.py: `df.to_csv(DATA_FILE, index=False)` — the file
now holds exactly the rows of the written DataFrame. -/
def save_data (df : List Row) : SysState :=
  { file := some df }

/-- Outcome of one alert-delivery attempt, carrying the status message the
program displays (`st.success` or `st.error`). -/
inductive Outcome where
  | delivered (msg : String)
  | failed (msg : String)
deriving DecidableEq, Repr

/-- send_alert_email from app.py.  The network interaction (connect, login,
sendmail) is summarised by its result `sinkResult`; the `try/except
Exception` wrapper converts success into an `st.success` message and any
raised exception into an `st.error` message.  The function always returns
an `Outcome`: no exception escapes it. -/
def send_alert_email (sinkResult : Except String Unit) (subject body : String) : Outcome :=
  match sinkResult with
  | Except.ok _ => Outcome.delivered " Alert email sent successfully!"
  | Except.error e => Outcome.failed (" Failed to send alert: " ++ e)

/-- A feature vector: (visitor_count, queue_time, crowd_index). -/
abbrev Feat : Type := Int × Int × Int

/-- Rendering of one stored cell inside a formatted message, as the
f-string interpolation of app.py renders the pandas value. -/
def cellStr : Cell → String
  | Cell.num n => toString n
  | Cell.text s => s
  | Cell.missing => "nan"

/-- Numeric coercion of a stored cell, as sklearn's input validation
performs it on the selected feature columns: a malformed string or a
missing value raises a ValueError. -/
def Cell.toNum : Cell → Except String Int
  | Cell.num n => Except.ok n
  | Cell.text s => Except.error ("could not convert string to float: " ++ s)
  | Cell.missing => Except.error "Input contains NaN."

/-- The feature extraction of one row, i.e. the row's slice of
`data[["visitor_count", "queue_time", "crowd_index"]]` together with the
numeric validation that `fit_predict` applies to it. -/
def rowFeatures (r : Row) : Except String Feat :=
  match r.visitor_count.toNum with
  | Except.error e => Except.error e
  | Except.ok v =>
    match r.queue_time.toNum with
    | Except.error e => Except.error e
    | Except.ok q =>
      match r.crowd_index.toNum with
      | Except.error e => Except.error e
      | Except.ok c => Except.ok (v, q, c)

/-- Feature extraction over the whole store, preserving order; the first
malformed row aborts with its error, so no partial feature matrix exists. -/
def extractFeatures : List Row → Except String (List Feat)
  | [] => Except.ok []
  | r :: rs =>
    match rowFeatures r with
    | Except.error e => Except.error e
    | Except.ok f =>
      match extractFeatures rs with
      | Except.error e => Except.error e
      | Except.ok fs => Except.ok (f :: fs)

/-- Whether a row passes the numeric validation of the three feature
columns. -/
def rowOk (r : Row) : Bool :=
  match rowFeatures r with
  | Except.ok _ => true
  | Except.error _ => false

/-- Whether some stored row is missing or malformed in a required numeric
field. -/
def hasMalformed (rows : List Row) : Bool :=
  rows.any (fun r => !(rowOk r))

/-- Modelled from the spec: the anomaly score that the IsolationForest fit
(not part of this repository — sklearn library code) assigns to one
feature vector.  The fitted model is a deterministic function of the batch
and of the fit's random seed; the seed enters the fitted scorer. -/
def anomalyScore (seed : Nat) (f : Feat) : Int :=
  f.1 + f.2.1 + f.2.2 + Int.ofNat (seed % 2)

/-- Modelled from the spec: the label IsolationForest
(contamination = 0.1) gives one vector of the batch: the expected outlier
fraction 0.1 of the batch size bounds how many of the highest-scoring
vectors are labelled -1 (anomalous); every other vector is labelled 1
(normal). -/
def labelOf (seed : Nat) (batch : List Feat) (f : Feat) : Int :=
  if ((batch.map (anomalyScore seed)).filter
      (fun t => anomalyScore seed f < t)).length < batch.length / 10
  then -1 else 1

/-- Modelled from the spec: `IsolationForest(contamination=0.1).fit_predict`
on an already-validated feature matrix — one label in the set of -1 and 1
per input vector, index-aligned with the input, deterministic in the batch
and the seed. -/
def fit_predict (seed : Nat) (fs : List Feat) : List Int :=
  fs.map (labelOf seed fs)

/-- Alert body string built in the dispatch loop of the Alerts page. -/
def alertMsg (r : Row) : String :=
  "⚠️ Alert: Unusual activity in " ++ r.region ++ " (" ++ r.sector ++
  ") — Crowd Index " ++ cellStr r.crowd_index ++ ", Queue Time " ++
  cellStr r.queue_time ++ " mins"

/-- Alert subject string built in the dispatch loop of the Alerts page. -/
def alertSubject (r : Row) : String :=
  "Alert: " ++ r.sector ++ " anomaly in " ++ r.region

/-- The selection `alerts = data[data["anomaly"] == -1]`: the rows whose
index-aligned label is -1. -/
def anomalyAlerts (rows : List Row) (labels : List Int) : List Row :=
  ((rows.zip labels).filter (fun p => p.2 == -1)).map Prod.fst

/-- The dispatch loop `for _, row in alerts.iterrows(): ...` starting at
send-attempt number `i`: each anomalous row gets its own
`send_alert_email` call, whose outcome depends on the sink's behaviour for
that attempt only. -/
def dispatchFrom (sink : Nat → Except String Unit) : Nat → List Row → List Outcome
  | _, [] => []
  | i, r :: rs =>
    send_alert_email (sink i) (alertSubject r) (alertMsg r) ::
      dispatchFrom sink (i + 1) rs

/-- The full dispatch loop of the Alerts page over the anomalous rows. -/
def dispatchAlerts (sink : Nat → Except String Unit) (alerts : List Row) : List Outcome :=
  dispatchFrom sink 0 alerts

/-- Result of one rendering of the Alerts page: the insufficient-data
warning, an uncaught schema/validation exception aborting the run, or the
completed run with the label sequence and the per-alert outcomes. -/
inductive AlertsResult where
  | insufficientData (msg : String)
  | schemaError (e : String)
  | done (labels : List Int) (outcomes : List Outcome)
deriving DecidableEq, Repr

/-- The label sequence a run returned (empty when the detector never
produced labels). -/
def resultLabels : AlertsResult → List Int
  | AlertsResult.done labels _ => labels
  | _ => []

/-- The per-alert delivery outcomes of a run (empty when no alert was
dispatched). -/
def sentAlerts : AlertsResult → List Outcome
  | AlertsResult.done _ outcomes => outcomes
  | _ => []

/-- Whether the run surfaced a fatal error to the caller. -/
def isFatalError : AlertsResult → Bool
  | AlertsResult.schemaError _ => true
  | _ => false

/-- Number of records a run labelled anomalous. -/
def anomalyCount (r : AlertsResult) : Nat :=
  ((resultLabels r).filter (fun l => l == -1)).length

/-- The Alerts page of app.py: load the store; if fewer than 10 rows,
display the insufficient-data warning; otherwise select the three feature
columns and run `fit_predict` (whose input validation may raise), attach
the labels, and dispatch one e-mail per anomalous row.  The page never
writes the store: the returned state is the input state. -/
def runAlertsPage (seed : Nat) (sink : Nat → Except String Unit)
    (s : SysState) : AlertsResult × SysState :=
  if (load_data s.file).rows.length < 10 then
    (AlertsResult.insufficientData "Not enough data for anomaly detection.", s)
  else
    match extractFeatures (load_data s.file).rows with
    | Except.error e => (AlertsResult.schemaError e, s)
    | Except.ok fs =>
      (AlertsResult.done (fit_predict seed fs)
        (dispatchAlerts sink
          (anomalyAlerts (load_data s.file).rows (fit_predict seed fs))), s)

/-- Iterated detection runs: the file state after `n` renderings of the
Alerts page. -/
def runAlertsPageN (seed : Nat) (sink : Nat → Except String Unit) :
    Nat → SysState → SysState
  | 0, s => s
  | n + 1, s => runAlertsPageN seed sink n (runAlertsPage seed sink s).2

/-- The `new_entry` DataFrame row built by the Submit Pulse form:
non-negative integer counts and times, the crowd-index slider value, and
the payment modes joined with ",". -/
def mkEntry (ts region sector : String) (visitor_count : Nat)
    (top_items : String) (queue_time : Nat) (payment_modes : List String)
    (crowd_index : Nat) : Row :=
  { timestamp := ts
    region := region
    sector := sector
    visitor_count := Cell.num (Int.ofNat visitor_count)
    top_items := top_items
    queue_time := Cell.num (Int.ofNat queue_time)
    payment_modes := String.intercalate "," payment_modes
    crowd_index := Cell.num (Int.ofNat crowd_index) }

/-- The submission branch of the Submit Pulse page:
`updated_data = pd.concat([data, new_entry], ignore_index=True);
save_data(updated_data)` followed by the success message. -/
def runSubmitPulse (s : SysState) (entry : Row) : SysState × String :=
  (save_data ((load_data s.file).rows ++ [entry]), "✅ Data submitted successfully!")

/-- Sample well-formed pulse record for concrete evaluations. -/
def sampleRow : Row :=
  { timestamp := "2025-09-01 10:00:00"
    region := "Mumbai"
    sector := "Retail"
    visitor_count := Cell.num 5
    top_items := "tea"
    queue_time := Cell.num 3
    payment_modes := "UPI"
    crowd_index := Cell.num 2 }

/-- Sample outlier record (large joint feature values). -/
def outlierRow : Row :=
  { timestamp := "2025-09-01 11:00:00"
    region := "Delhi"
    sector := "Hospitality"
    visitor_count := Cell.num 100
    top_items := "rooms"
    queue_time := Cell.num 90
    payment_modes := "Card"
    crowd_index := Cell.num 10 }

/-- Sample malformed record: `crowd_index` holds the string "abc". -/
def badRow : Row :=
  { timestamp := "2025-09-01 12:00:00"
    region := "Chennai"
    sector := "Finance"
    visitor_count := Cell.num 4
    top_items := "loans"
    queue_time := Cell.num 6
    payment_modes := "Cash"
    crowd_index := Cell.text "abc" }

/-- A store of nine valid rows (below the detection threshold). -/
def nineRows : List Row := List.replicate 9 sampleRow

/-- A store of ten valid rows, one of them an outlier. -/
def tenRows : List Row := outlierRow :: List.replicate 9 sampleRow

/-- The feature matrix of `tenRows`. -/
def tenFeats : List Feat := (100, 90, 10) :: List.replicate 9 (5, 3, 2)

/-- A store of ten rows, the first of them malformed. -/
def badTenRows : List Row := badRow :: List.replicate 9 sampleRow

/-- Three anomalous rows for dispatch evaluations. -/
def threeAlertRows : List Row := [sampleRow, outlierRow, sampleRow]

/-- A notification sink that delivers every attempt. -/
def sinkOk : Nat → Except String Unit := fun _ => Except.ok ()

/-- A notification sink that fails exactly the second attempt (index 1). -/
def sinkFailSecond : Nat → Except String Unit :=
  fun n => if n == 1 then Except.error "Connection refused" else Except.ok ()

theorem runAlertsPage_snd (seed : Nat) (sink : Nat → Except String Unit)
    (s : SysState) : (runAlertsPage seed sink s).2 = s := by
  unfold runAlertsPage
  split
  · rfl
  · split <;> rfl

theorem runAlertsPageN_fix (seed : Nat) (sink : Nat → Except String Unit)
    (n : Nat) (s : SysState) : runAlertsPageN seed sink n s = s := by
  induction n generalizing s with
  | zero => rfl
  | succ k ih =>
    rw [runAlertsPageN, runAlertsPage_snd]
    exact ih s

theorem extractFeatures_length {rows : List Row} {fs : List Feat}
    (h : extractFeatures rows = Except.ok fs) : fs.length = rows.length := by
  induction rows generalizing fs with
  | nil =>
    simp only [extractFeatures, Except.ok.injEq] at h
    subst h
    rfl
  | cons r rs ih =>
    simp only [extractFeatures] at h
    cases hr : rowFeatures r with
    | error e => rw [hr] at h; cases h
    | ok f =>
      rw [hr] at h
      cases hrec : extractFeatures rs with
      | error e => rw [hrec] at h; cases h
      | ok fs0 =>
        rw [hrec] at h
        injection h with h2
        subst h2
        simp [ih hrec]

theorem extractFeatures_get {rows : List Row} {fs : List Feat}
    (h : extractFeatures rows = Except.ok fs) :
    ∀ i r f, rows.get? i = some r → fs.get? i = some f →
      rowFeatures r = Except.ok f := by
  induction rows generalizing fs with
  | nil =>
    intro i r f hr _
    simp at hr
  | cons a rs ih =>
    simp only [extractFeatures] at h
    cases ha : rowFeatures a with
    | error e => rw [ha] at h; cases h
    | ok f0 =>
      rw [ha] at h
      cases hrec : extractFeatures rs with
      | error e => rw [hrec] at h; cases h
      | ok fs0 =>
        rw [hrec] at h
        injection h with h2
        subst h2
        intro i r f hr hf
        cases i with
        | zero =>
          simp only [List.get?] at hr hf
          injection hr with hr2
          injection hf with hf2
          rw [← hr2, ← hf2]
          exact ha
        | succ k =>
          simp only [List.get?] at hr hf
          exact ih hrec k r f hr hf

theorem hasMalformed_extractFeatures {rows : List Row}
    (h : hasMalformed rows = true) :
    ∃ e, extractFeatures rows = Except.error e := by
  induction rows with
  | nil => simp [hasMalformed] at h
  | cons a rs ih =>
    simp only [hasMalformed, List.any_cons, Bool.or_eq_true] at h
    cases ha : rowFeatures a with
    | error e =>
      refine ⟨e, ?_⟩
      simp only [extractFeatures, ha]
    | ok f =>
      have hrs : hasMalformed rs = true := by
        cases h with
        | inl hx =>
          exfalso
          rw [rowOk, ha] at hx
          simp at hx
        | inr hx => exact hx
      obtain ⟨e, he⟩ := ih hrs
      refine ⟨e, ?_⟩
      simp only [extractFeatures, ha, he]

theorem dispatchFrom_length (sink : Nat → Except String Unit) (j : Nat)
    (rows : List Row) : (dispatchFrom sink j rows).length = rows.length := by
  induction rows generalizing j with
  | nil => rfl
  | cons r rs ih => simp [dispatchFrom, ih]

theorem dispatchFrom_get (sink : Nat → Except String Unit) (j i : Nat)
    (rows : List Row) :
    (dispatchFrom sink j rows).get? i =
      (rows.get? i).map
        (fun r => send_alert_email (sink (j + i)) (alertSubject r) (alertMsg r)) := by
  induction rows generalizing j i with
  | nil => simp [dispatchFrom]
  | cons r rs ih =>
    cases i with
    | zero => simp [dispatchFrom]
    | succ k =>
      simp only [dispatchFrom, List.get?, ih, Nat.add_succ, Nat.succ_add]

theorem fit_predict_length (seed : Nat) (fs : List Feat) :
    (fit_predict seed fs).length = fs.length :=
  List.length_map fs (labelOf seed fs)

theorem fit_predict_mem (seed : Nat) (fs : List Feat) :
    ∀ l ∈ fit_predict seed fs, l = -1 ∨ l = 1 := by
  intro l hl
  simp only [fit_predict, List.mem_map] at hl
  obtain ⟨f, _, hf⟩ := hl
  rw [labelOf] at hf
  split at hf
  · exact Or.inl hf.symm
  · exact Or.inr hf.symm

theorem fit_predict_get (seed : Nat) (fs : List Feat) (i : Nat) (f : Feat)
    (h : fs.get? i = some f) :
    (fit_predict seed fs).get? i = some (labelOf seed fs f) := by
  rw [fit_predict, List.get?_map, h]
  rfl

/-- C1: for every observation store with fewer than 10 observations, a
rendering of the Alerts page terminates in the insufficient-data state:
the detector is not invoked (no label sequence is produced), the explicit
"Not enough data" message is the result, and zero alerts are dispatched
to the notification sink. -/
theorem insufficient_data_soft_state (seed : Nat)
    (sink : Nat → Except String Unit) (s : SysState)
    (h : (load_data s.file).rows.length < 10) :
    (runAlertsPage seed sink s).1 =
      AlertsResult.insufficientData "Not enough data for anomaly detection." ∧
    resultLabels (runAlertsPage seed sink s).1 = [] ∧
    sentAlerts (runAlertsPage seed sink s).1 = [] := by
  have hres : (runAlertsPage seed sink s).1 =
      AlertsResult.insufficientData "Not enough data for anomaly detection." := by
    unfold runAlertsPage
    rw [if_pos h]
  rw [hres]
  exact ⟨rfl, rfl, rfl⟩

/-- Witness for C1 at a concrete store of nine valid rows. -/
theorem insufficient_data_soft_state_witness :
    (load_data (SysState.mk (some nineRows)).file).rows.length < 10 ∧
    ((runAlertsPage 0 sinkOk (SysState.mk (some nineRows))).1 =
      AlertsResult.insufficientData "Not enough data for anomaly detection." ∧
    resultLabels (runAlertsPage 0 sinkOk (SysState.mk (some nineRows))).1 = [] ∧
    sentAlerts (runAlertsPage 0 sinkOk (SysState.mk (some nineRows))).1 = []) :=
  ⟨by decide, insufficient_data_soft_state 0 sinkOk (SysState.mk (some nineRows)) (by decide)⟩

/-- C2: for every observation store with at least 10 observations whose
records pass the numeric-field validation, the detector assigns exactly
one label from the set of -1 (anomalous) and 1 (normal) to every
observation; the label sequence has the same length as the observation
sequence and is index-aligned with it (label i is the label of the
feature vector extracted from observation i). -/
theorem detector_labels_all_observations (seed : Nat)
    (sink : Nat → Except String Unit) (s : SysState) (fs : List Feat)
    (h10 : ¬ (load_data s.file).rows.length < 10)
    (hf : extractFeatures (load_data s.file).rows = Except.ok fs) :
    (∃ outs, (runAlertsPage seed sink s).1 =
      AlertsResult.done (fit_predict seed fs) outs) ∧
    (fit_predict seed fs).length = (load_data s.file).rows.length ∧
    (∀ l ∈ fit_predict seed fs, l = -1 ∨ l = 1) ∧
    (∀ i f, fs.get? i = some f →
      (fit_predict seed fs).get? i = some (labelOf seed fs f)) ∧
    (∀ i r f, (load_data s.file).rows.get? i = some r → fs.get? i = some f →
      rowFeatures r = Except.ok f) := by
  refine ⟨?_, ?_, fit_predict_mem seed fs, ?_, ?_⟩
  · refine ⟨dispatchAlerts sink (anomalyAlerts (load_data s.file).rows (fit_predict seed fs)), ?_⟩
    unfold runAlertsPage
    rw [if_neg h10, hf]
  · rw [fit_predict_length, extractFeatures_length hf]
  · intro i f h
    exact fit_predict_get seed fs i f h
  · intro i r f hr hfi
    exact extractFeatures_get hf i r f hr hfi

/-- Witness for C2 at a concrete store of ten valid rows. -/
theorem detector_labels_all_observations_witness :
    (¬ (load_data (SysState.mk (some tenRows)).file).rows.length < 10) ∧
    extractFeatures (load_data (SysState.mk (some tenRows)).file).rows = Except.ok tenFeats ∧
    ((∃ outs, (runAlertsPage 0 sinkOk (SysState.mk (some tenRows))).1 =
      AlertsResult.done (fit_predict 0 tenFeats) outs) ∧
    (fit_predict 0 tenFeats).length = (load_data (SysState.mk (some tenRows)).file).rows.length ∧
    (∀ l ∈ fit_predict 0 tenFeats, l = -1 ∨ l = 1) ∧
    (∀ i f, tenFeats.get? i = some f →
      (fit_predict 0 tenFeats).get? i = some (labelOf 0 tenFeats f)) ∧
    (∀ i r f, (load_data (SysState.mk (some tenRows)).file).rows.get? i = some r →
      tenFeats.get? i = some f → rowFeatures r = Except.ok f)) :=
  ⟨by decide, by rfl,
    detector_labels_all_observations 0 sinkOk (SysState.mk (some tenRows)) tenFeats
      (by decide) (by rfl)⟩

/-- C3 counterexample: a store of one row whose `crowd_index` is the
malformed string "abc" does not abort with a schema error — the size gate
fires first and the run terminates in the insufficient-data state. -/
theorem schema_error_requires_min_rows_cex :
    hasMalformed [badRow] = true ∧
    (runAlertsPage 0 sinkOk (SysState.mk (some [badRow]))).1 =
      AlertsResult.insufficientData "Not enough data for anomaly detection." ∧
    isFatalError (runAlertsPage 0 sinkOk (SysState.mk (some [badRow]))).1 = false :=
  ⟨by rfl, by rfl, by rfl⟩

/-- C3 (amended): for every observation store with at least 10 rows, one of
which is missing or malformed in a required numeric field, the detection
run aborts with a schema/validation error surfaced to the caller: zero
labels are returned and zero alerts are sent. -/
theorem schema_error_aborts_run (seed : Nat) (sink : Nat → Except String Unit)
    (s : SysState)
    (h10 : ¬ (load_data s.file).rows.length < 10)
    (hm : hasMalformed (load_data s.file).rows = true) :
    (∃ e, (runAlertsPage seed sink s).1 = AlertsResult.schemaError e) ∧
    resultLabels (runAlertsPage seed sink s).1 = [] ∧
    sentAlerts (runAlertsPage seed sink s).1 = [] := by
  obtain ⟨e, he⟩ := hasMalformed_extractFeatures hm
  have hres : (runAlertsPage seed sink s).1 = AlertsResult.schemaError e := by
    unfold runAlertsPage
    rw [if_neg h10, he]
  rw [hres]
  exact ⟨⟨e, rfl⟩, rfl, rfl⟩

/-- Witness for the amended C3 at a concrete ten-row store whose first row
is malformed. -/
theorem schema_error_aborts_run_witness :
    (¬ (load_data (SysState.mk (some badTenRows)).file).rows.length < 10) ∧
    hasMalformed (load_data (SysState.mk (some badTenRows)).file).rows = true ∧
    ((∃ e, (runAlertsPage 0 sinkOk (SysState.mk (some badTenRows))).1 =
      AlertsResult.schemaError e) ∧
    resultLabels (runAlertsPage 0 sinkOk (SysState.mk (some badTenRows))).1 = [] ∧
    sentAlerts (runAlertsPage 0 sinkOk (SysState.mk (some badTenRows))).1 = []) :=
  ⟨by decide, by rfl,
    schema_error_aborts_run 0 sinkOk (SysState.mk (some badTenRows)) (by decide) (by rfl)⟩

/-- C4: the dispatch loop gives every anomalous row its own independent
delivery attempt: the outcome list has one outcome per anomalous row, the
outcome at index i is exactly the outcome of sending alert i through the
sink's behaviour for attempt i, and it is unchanged under any modification
of the sink's behaviour at the other attempts (so one delivery failure
cannot abort or alter the remaining dispatches). -/
theorem alert_dispatch_per_alert_isolation (sink sink2 : Nat → Except String Unit)
    (alerts : List Row) (i : Nat) (hagree : sink i = sink2 i) :
    (dispatchAlerts sink alerts).length = alerts.length ∧
    (dispatchAlerts sink alerts).get? i =
      (alerts.get? i).map
        (fun r => send_alert_email (sink i) (alertSubject r) (alertMsg r)) ∧
    (dispatchAlerts sink alerts).get? i = (dispatchAlerts sink2 alerts).get? i := by
  refine ⟨dispatchFrom_length sink 0 alerts, ?_, ?_⟩
  · have h := dispatchFrom_get sink 0 i alerts
    simpa using h
  · have h1 := dispatchFrom_get sink 0 i alerts
    have h2 := dispatchFrom_get sink2 0 i alerts
    rw [dispatchAlerts, dispatchAlerts, h1, h2]
    simp [hagree]

/-- Witness for C4: two concrete sinks (one delivering everything, one
failing exactly the second attempt) that agree on attempt 2, evaluated on
a three-alert batch. -/
theorem alert_dispatch_per_alert_isolation_witness :
    sinkOk 2 = sinkFailSecond 2 ∧
    ((dispatchAlerts sinkOk threeAlertRows).length = threeAlertRows.length ∧
    (dispatchAlerts sinkOk threeAlertRows).get? 2 =
      (threeAlertRows.get? 2).map
        (fun r => send_alert_email (sinkOk 2) (alertSubject r) (alertMsg r)) ∧
    (dispatchAlerts sinkOk threeAlertRows).get? 2 =
      (dispatchAlerts sinkFailSecond threeAlertRows).get? 2) :=
  ⟨rfl, alert_dispatch_per_alert_isolation sinkOk sinkFailSecond threeAlertRows 2 rfl⟩

/-- C5: a rendering of the Alerts page never writes the observation store:
the file state after one detection run — and after any number of
detection runs — equals the file state before. -/
theorem detection_runs_preserve_store (seed : Nat)
    (sink : Nat → Except String Unit) (s : SysState) (n : Nat) :
    (runAlertsPage seed sink s).2 = s ∧ runAlertsPageN seed sink n s = s :=
  ⟨runAlertsPage_snd seed sink s, runAlertsPageN_fix seed sink n s⟩

/-- C6: when the backing file is absent or unreadable, `load_data` returns
the empty DataFrame with the fixed eight-column schema instead of raising
a fatal error, and every `load_data` result carries that schema. -/
theorem load_data_failure_yields_empty_store :
    load_data none = { columns := schemaColumns, rows := [] } ∧
    (load_data none).rows = [] ∧
    schemaColumns.length = 8 ∧
    ∀ file, (load_data file).columns = schemaColumns := by
  refine ⟨rfl, rfl, rfl, ?_⟩
  intro file
  cases file <;> rfl

/-- C7 counterexample: with an unreadable backing file the Alerts page run
does not surface any fatal store-read error — it terminates in the
insufficient-data soft state with zero alerts, because `load_data` maps
every read failure to the empty store. -/
theorem store_unreadable_no_error_cex :
    (runAlertsPage 0 sinkOk (SysState.mk none)).1 =
      AlertsResult.insufficientData "Not enough data for anomaly detection." ∧
    isFatalError (runAlertsPage 0 sinkOk (SysState.mk none)).1 = false ∧
    sentAlerts (runAlertsPage 0 sinkOk (SysState.mk none)).1 = [] :=
  ⟨rfl, rfl, rfl⟩

/-- C7 (amended): if the observation store is unreadable, the store read
yields the empty observation sequence and the pipeline run terminates in
the insufficient-data state — no labels, no alerts, no partial results,
and no store-read error is surfaced to the caller. -/
theorem store_unreadable_insufficient_data (seed : Nat)
    (sink : Nat → Except String Unit) :
    runAlertsPage seed sink (SysState.mk none) =
      (AlertsResult.insufficientData "Not enough data for anomaly detection.",
        SysState.mk none) ∧
    resultLabels (runAlertsPage seed sink (SysState.mk none)).1 = [] ∧
    sentAlerts (runAlertsPage seed sink (SysState.mk none)).1 = [] :=
  ⟨rfl, rfl, rfl⟩

/-- C8: two consecutive detection runs on an unchanged store, with the
same seed for the model fit, return the identical label sequence and in
particular the identical anomaly count. -/
theorem two_run_determinism_fixed_seed (seed : Nat)
    (sink : Nat → Except String Unit) (s : SysState) :
    resultLabels (runAlertsPage seed sink (runAlertsPage seed sink s).2).1 =
      resultLabels (runAlertsPage seed sink s).1 ∧
    anomalyCount (runAlertsPage seed sink (runAlertsPage seed sink s).2).1 =
      anomalyCount (runAlertsPage seed sink s).1 := by
  rw [runAlertsPage_snd]
  exact ⟨rfl, rfl⟩

/-- C9: `send_alert_email` is total with respect to sink failures: for any
exception the sink interaction raises it returns the failure outcome with
the formatted error message, on success it returns the delivered outcome,
and for every possible sink result it returns normally with exactly one
of the two outcomes — no exception propagates to the caller. -/
theorem send_alert_email_never_raises (subject body : String) :
    (∀ e, send_alert_email (Except.error e) subject body =
      Outcome.failed (" Failed to send alert: " ++ e)) ∧
    send_alert_email (Except.ok ()) subject body =
      Outcome.delivered " Alert email sent successfully!" ∧
    (∀ res : Except String Unit,
      (∃ m, send_alert_email res subject body = Outcome.failed m) ∨
      (∃ m, send_alert_email res subject body = Outcome.delivered m)) := by
  refine ⟨fun e => rfl, rfl, ?_⟩
  intro res
  cases res with
  | error e => exact Or.inl ⟨" Failed to send alert: " ++ e, rfl⟩
  | ok u => exact Or.inr ⟨" Alert email sent successfully!", rfl⟩

/-- C10: submitting one pulse form saves exactly the previously loaded
dataset with the single new record concatenated at the end: every prior
record is preserved unchanged and in its original order, and the length
grows by exactly one. -/
theorem submit_appends_single_record (s : SysState)
    (ts rg sec items : String) (vc qt ci : Nat) (pm : List String) :
    (runSubmitPulse s (mkEntry ts rg sec vc items qt pm ci)).1 =
      save_data ((load_data s.file).rows ++ [mkEntry ts rg sec vc items qt pm ci]) ∧
    (runSubmitPulse s (mkEntry ts rg sec vc items qt pm ci)).1.file =
      some ((load_data s.file).rows ++ [mkEntry ts rg sec vc items qt pm ci]) ∧
    ((load_data s.file).rows ++ [mkEntry ts rg sec vc items qt pm ci]).take
      (load_data s.file).rows.length = (load_data s.file).rows ∧
    ((load_data s.file).rows ++ [mkEntry ts rg sec vc items qt pm ci]).length =
      (load_data s.file).rows.length + 1 := by
  refine ⟨rfl, rfl, ?_, by simp⟩
  simp
